import Mathlib

/-!
Shallow embedding of `src/interview/questions/1/ordered_resources.py`
(`OrderedResources`: a pool of resources indexed `0 .. size - 1`, whose
first `_first_available_resource` items are busy and the rest free, with
probe accounting and a budget of two expensive "free" observations).

Conventions of the embedding:
* Python machine state is passed explicitly: a method that mutates `self`
  returns the updated `OrderedResources` alongside its result.
* A raised exception is an `Except.error` carrying a constructor named
  after the exception class; the updated state is still returned, because
  an exception does not roll back the mutations already performed.
* `random.randint(lo, hi)` is modelled by passing the drawn value `r`
  explicitly; `randint` raises `ValueError` when `hi < lo`, which for the
  call `random.randint(0, size - 1)` in `__init__` happens exactly when
  `size = 0` (given that `size < 0` already raised `NegativeSize`).
* `locate` additionally returns the list of indices actually passed to
  `is_resource_free` (its query trace), in call order, so that statements
  about which indices are queried can be made; this is pure
  instrumentation and changes no behaviour.
* The `print` call in `is_resource_free` is console output with no effect
  on the object state and is not modelled.
-/

/-- Outcome of `OrderedResources.__init__`: either a failure
(`NegativeSize` raised by the explicit guard, or the `ValueError` raised
by `random.randint(0, -1)` when `size = 0`) or the constructed pool. -/
inductive InitError where
  | negativeSize
  | emptyRange
deriving DecidableEq

/-- Exceptions that `is_resource_free` can raise. -/
inductive QueryError where
  | indexOutOfBound
  | tooManyProbes
deriving DecidableEq

/-- The state of an `OrderedResources` object: `size`, the hidden
boundary `_first_available_resource`, and the two probe counters
`_free_count` and `_busy_count`. -/
structure OrderedResources where
  size : Nat
  first_available_resource : Nat
  free_count : Nat
  busy_count : Nat
deriving DecidableEq

/-- `OrderedResources.__init__(size)` where `r` is the value drawn by
`random.randint(0, size - 1)` (the theorems that use `ordInit` carry
`randint`'s guarantee `r ≤ size - 1` as a hypothesis where it matters).
Mirrors the source: `size < 0` raises `NegativeSize`; then
`random.randint(0, self.size - 1)` raises `ValueError` when its range
`[0, size - 1]` is empty, i.e. when `size = 0`. -/
def ordInit (size : Int) (r : Nat) : Except InitError OrderedResources :=
  if size < 0 then Except.error InitError.negativeSize
  else if size - 1 < 0 then Except.error InitError.emptyRange
  else Except.ok ⟨size.toNat, r, 0, 0⟩

/-- `OrderedResources.is_resource_free(index)`.  Raises `IndexOutOfBound`
when `index >= size` (state untouched).  Otherwise classifies the index
against the hidden boundary: free iff `index >= _first_available_resource`.
A free answer first increments `_free_count` and then raises
`TooManyProbes` when the incremented count exceeds 2 (the increment
survives the raise); a busy answer increments `_busy_count`. -/
def is_resource_free (p : OrderedResources) (index : Nat) :
    OrderedResources × Except QueryError Bool :=
  if p.size ≤ index then
    (p, Except.error QueryError.indexOutOfBound)
  else if p.first_available_resource ≤ index then
    if 2 < p.free_count + 1 then
      (⟨p.size, p.first_available_resource, p.free_count + 1, p.busy_count⟩,
        Except.error QueryError.tooManyProbes)
    else
      (⟨p.size, p.first_available_resource, p.free_count + 1, p.busy_count⟩,
        Except.ok true)
  else
    (⟨p.size, p.first_available_resource, p.free_count, p.busy_count + 1⟩,
      Except.ok false)

/-- Possible outcomes of `OrderedResources.locate`: a returned index, the
`AllResourcesInUse` exception (raised both for `size == 0` and when the
scan finds no free resource), a `TooManyProbes` or `IndexOutOfBound`
exception propagating out of `is_resource_free`, and the
`NotImplementedError` of the final line of the method body. -/
inductive LocateResult where
  | found : Nat → LocateResult
  | allResourcesInUse : LocateResult
  | tooManyProbes : LocateResult
  | indexOutOfBound : LocateResult
  | notImplementedError : LocateResult
deriving DecidableEq

/-- The `for i in range(self.size)` loop of `locate`, together with the
code that follows it.  `rem` counts the iterations left (`i + rem = size`
at the entry call), `cache` is the `cache` dict (as an association list),
`trace` records the indices actually queried, and `free_resource_found`
is the flag of the source.  On each iteration: query `i` unless cached;
a free answer after a directly preceding free answer returns `i - 1`;
after the loop, a still-set flag returns `size - 1`, otherwise
`AllResourcesInUse` is raised — the `raise NotImplementedError` that
follows it in the source can never be reached. -/
def locateLoop :
    Nat → OrderedResources → List (Nat × Bool) → List Nat → Bool → Nat →
      OrderedResources × List Nat × LocateResult
  | 0, p, _cache, trace, free_resource_found, _i =>
    if free_resource_found then (p, trace, LocateResult.found (p.size - 1))
    else (p, trace, LocateResult.allResourcesInUse)
  | rem + 1, p, cache, trace, free_resource_found, i =>
    match cache.lookup i with
    | some cached =>
      if cached then
        if free_resource_found then (p, trace, LocateResult.found (i - 1))
        else locateLoop rem p cache trace true (i + 1)
      else locateLoop rem p cache trace false (i + 1)
    | none =>
      match is_resource_free p i with
      | (p', Except.error QueryError.indexOutOfBound) =>
        (p', trace ++ [i], LocateResult.indexOutOfBound)
      | (p', Except.error QueryError.tooManyProbes) =>
        (p', trace ++ [i], LocateResult.tooManyProbes)
      | (p', Except.ok b) =>
        if b then
          if free_resource_found then (p', trace ++ [i], LocateResult.found (i - 1))
          else locateLoop rem p' ((i, b) :: cache) (trace ++ [i]) true (i + 1)
        else locateLoop rem p' ((i, b) :: cache) (trace ++ [i]) false (i + 1)

/-- `OrderedResources.locate()`: raises `AllResourcesInUse` immediately
when `size == 0`; otherwise runs the scan loop starting from index 0
with an empty cache and the flag down.  Returns the final object state,
the query trace and the outcome. -/
def locate (p : OrderedResources) : OrderedResources × List Nat × LocateResult :=
  if p.size = 0 then (p, [], LocateResult.allResourcesInUse)
  else locateLoop p.size p [] [] false 0

/-- A busy probe: in range and strictly below the boundary, the query
answers `false` and charges `_busy_count`. -/
lemma is_resource_free_busy (size b fc bc i : Nat) (h1 : i < size) (h2 : i < b) :
    is_resource_free ⟨size, b, fc, bc⟩ i = (⟨size, b, fc, bc + 1⟩, Except.ok false) := by
  simp [is_resource_free, Nat.not_le.mpr h1, Nat.not_le.mpr h2]

/-- A free probe within budget: the query answers `true` and charges
`_free_count`. -/
lemma is_resource_free_free (size b fc bc i : Nat) (h1 : i < size) (h2 : b ≤ i)
    (h3 : fc + 1 ≤ 2) :
    is_resource_free ⟨size, b, fc, bc⟩ i = (⟨size, b, fc + 1, bc⟩, Except.ok true) := by
  simp [is_resource_free, Nat.not_le.mpr h1, h2, Nat.not_lt.mpr h3]

/-- A free probe past the budget: `_free_count` is still charged but the
call raises `TooManyProbes`. -/
lemma is_resource_free_probes (size b fc bc i : Nat) (h1 : i < size) (h2 : b ≤ i)
    (h3 : 2 < fc + 1) :
    is_resource_free ⟨size, b, fc, bc⟩ i
      = (⟨size, b, fc + 1, bc⟩, Except.error QueryError.tooManyProbes) := by
  simp [is_resource_free, Nat.not_le.mpr h1, h2, h3]

/-- An association list whose keys are all below `i` cannot answer a
lookup of `i`. -/
lemma lookup_none_of_keys_lt {cache : List (Nat × Bool)} {i : Nat}
    (h : ∀ pr ∈ cache, pr.1 < i) : cache.lookup i = none := by
  induction cache with
  | nil => rfl
  | cons hd tl ih =>
    obtain ⟨k, v⟩ := hd
    have hk : k < i := h (k, v) (List.mem_cons_self _ _)
    have hne : (i == k) = false := by
      simp [Nat.ne_of_gt hk]
    have hstep : List.lookup i ((k, v) :: tl) = List.lookup i tl := by
      simp [List.lookup, hne]
    rw [hstep]
    exact ih fun pr hpr => h pr (List.mem_cons_of_mem _ hpr)

/-- Running the scan loop across a run of `n` busy indices (`i + n ≤ b`)
only charges `_busy_count` `n` times, clears the flag (when `n > 0`) and
moves the loop on to index `i + n`; the cache keys stay below the current
index. -/
lemma locateLoop_busy_run (size b : Nat) :
    ∀ (n i rem fc bc : Nat) (cache : List (Nat × Bool)) (trace : List Nat) (flag : Bool),
      i + rem = size → i + n ≤ b → i + n ≤ size →
      (∀ pr ∈ cache, pr.1 < i) →
      ∃ (cache' : List (Nat × Bool)) (trace' : List Nat),
        (∀ pr ∈ cache', pr.1 < i + n) ∧
        locateLoop rem ⟨size, b, fc, bc⟩ cache trace flag i
          = locateLoop (rem - n) ⟨size, b, fc, bc + n⟩ cache' trace'
              (if n = 0 then flag else false) (i + n) := by
  intro n
  induction n with
  | zero =>
    intro i rem fc bc cache trace flag _hrem _hb _hs hc
    exact ⟨cache, trace, by simpa using hc, by simp⟩
  | succ k ih =>
    intro i rem fc bc cache trace flag hrem hb hs hc
    have hi_lt : i < size := by omega
    obtain ⟨m, rfl⟩ : ∃ m, rem = m + 1 := ⟨rem - 1, by omega⟩
    have hlook : cache.lookup i = none := lookup_none_of_keys_lt hc
    have hquery : is_resource_free ⟨size, b, fc, bc⟩ i
        = (⟨size, b, fc, bc + 1⟩, Except.ok false) :=
      is_resource_free_busy size b fc bc i hi_lt (by omega)
    have hstep : locateLoop (m + 1) ⟨size, b, fc, bc⟩ cache trace flag i
        = locateLoop m ⟨size, b, fc, bc + 1⟩ ((i, false) :: cache) (trace ++ [i]) false (i + 1) := by
      simp only [locateLoop, hlook, hquery]
      simp
    have hc' : ∀ pr ∈ ((i, false) :: cache), pr.1 < i + 1 := by
      intro pr hpr
      rcases List.mem_cons.mp hpr with h | h
      · subst h; exact Nat.lt_succ_self i
      · exact Nat.lt_succ_of_lt (hc pr h)
    obtain ⟨cache', trace', hkeys, heq⟩ :=
      ih (i + 1) m fc (bc + 1) ((i, false) :: cache) (trace ++ [i]) false
        (by omega) (by omega) (by omega) hc'
    refine ⟨cache', trace', ?_, ?_⟩
    · intro pr hpr
      have := hkeys pr hpr
      omega
    · rw [hstep, heq]
      have h1 : bc + 1 + k = bc + (k + 1) := by omega
      have h2 : i + 1 + k = i + (k + 1) := by omega
      have h3 : m - k = m + 1 - (k + 1) := by omega
      rw [h1, h2, h3]
      simp

/-- A fully busy pool (`size ≤ b`): the scan visits every index, charges
`_busy_count` `size` times, never observes a free resource, and ends in
the `AllResourcesInUse` raise. -/
lemma locate_all_busy (size b : Nat) (h0 : 0 < size) (hb : size ≤ b) :
    ∃ trace, locate ⟨size, b, 0, 0⟩
      = (⟨size, b, 0, size⟩, trace, LocateResult.allResourcesInUse) := by
  obtain ⟨cache', trace', _hkeys, heq⟩ :=
    locateLoop_busy_run size b size 0 size 0 0 [] [] false
      (by omega) (by omega) (by omega) (by simp)
  refine ⟨trace', ?_⟩
  have hloc : locate ⟨size, b, 0, 0⟩ = locateLoop size ⟨size, b, 0, 0⟩ [] [] false 0 := by
    have hne : size ≠ 0 := by omega
    simp [locate, hne]
  rw [hloc, heq]
  simp only [Nat.sub_self, Nat.zero_add]
  have hflag : (if size = 0 then false else false) = false := by simp
  rw [hflag]
  simp [locateLoop]

/-- A pool with a reachable boundary (`b < size`): the scan charges
`_busy_count` once per busy index, then observes the free boundary; when
another index remains it observes a second free answer at `b + 1` and
returns `b` from the two-in-a-row branch, otherwise the loop ends with
the flag set and returns `size - 1 = b`.  Either way the result is `b`,
within the probe budget. -/
lemma locate_found (size b : Nat) (hb : b < size) :
    ∃ trace, locate ⟨size, b, 0, 0⟩
      = (⟨size, b, if b + 1 < size then 2 else 1, b⟩, trace, LocateResult.found b) := by
  obtain ⟨cache', trace', hkeys, heq⟩ :=
    locateLoop_busy_run size b b 0 size 0 0 [] [] false
      (by omega) (by omega) (by omega) (by simp)
  simp only [Nat.zero_add] at heq hkeys
  have hloc : locate ⟨size, b, 0, 0⟩ = locateLoop size ⟨size, b, 0, 0⟩ [] [] false 0 := by
    have hne : size ≠ 0 := by omega
    simp [locate, hne]
  have hflag : (if b = 0 then false else false) = false := by simp
  rw [hflag] at heq
  obtain ⟨m, hm⟩ : ∃ m, size - b = m + 1 := ⟨size - b - 1, by omega⟩
  rw [hm] at heq
  -- one free step at index b: flag goes up, `_free_count` goes to 1
  have hlook : cache'.lookup b = none := lookup_none_of_keys_lt hkeys
  have hquery : is_resource_free ⟨size, b, 0, b⟩ b = (⟨size, b, 1, b⟩, Except.ok true) :=
    is_resource_free_free size b 0 b b hb (Nat.le_refl b) (by omega)
  have hstep : locateLoop (m + 1) ⟨size, b, 0, b⟩ cache' trace' false b
      = locateLoop m ⟨size, b, 1, b⟩ ((b, true) :: cache') (trace' ++ [b]) true (b + 1) := by
    simp only [locateLoop, hlook, hquery]
    simp
  rcases Nat.eq_zero_or_pos m with hm0 | hmpos
  · -- b = size - 1: the loop ends with the flag set and returns size - 1
    subst hm0
    refine ⟨trace' ++ [b], ?_⟩
    rw [hloc, heq, hstep]
    have hb1 : ¬ b + 1 < size := by omega
    have hsz : size - 1 = b := by omega
    simp [locateLoop, hb1, hsz]
  · -- b + 1 < size: a second free answer at b + 1 returns (b + 1) - 1 = b
    obtain ⟨k, hk⟩ : ∃ k, m = k + 1 := ⟨m - 1, by omega⟩
    subst hk
    have hb1 : b + 1 < size := by omega
    have hlook2 : ((b, true) :: cache').lookup (b + 1) = none := by
      refine lookup_none_of_keys_lt ?_
      intro pr hpr
      rcases List.mem_cons.mp hpr with h | h
      · subst h; omega
      · have := hkeys pr h; omega
    have hquery2 : is_resource_free ⟨size, b, 1, b⟩ (b + 1)
        = (⟨size, b, 2, b⟩, Except.ok true) :=
      is_resource_free_free size b 1 b (b + 1) hb1 (by omega) (by omega)
    refine ⟨trace' ++ [b] ++ [b + 1], ?_⟩
    rw [hloc, heq, hstep]
    have hfin : locateLoop (k + 1) ⟨size, b, 1, b⟩ ((b, true) :: cache') (trace' ++ [b]) true (b + 1)
        = (⟨size, b, 2, b⟩, trace' ++ [b] ++ [b + 1], LocateResult.found b) := by
      simp only [locateLoop, hlook2, hquery2]
      simp
    rw [hfin]
    simp [hb1]

/-- C2: `is_resource_free` raises `IndexOutOfBound` (state untouched)
exactly when `index ≥ size`; otherwise it answers free if and only if
the index is at or above the hidden boundary, charging the matching
counter — and when the answer would be free after two free answers have
already been observed, it raises `TooManyProbes` instead of returning a
value, with `_free_count` still incremented. -/
theorem is_resource_free_contract (p : OrderedResources) (index : Nat) :
    (p.size ≤ index →
      is_resource_free p index = (p, Except.error QueryError.indexOutOfBound))
  ∧ (index < p.size → index < p.first_available_resource →
      is_resource_free p index
        = (⟨p.size, p.first_available_resource, p.free_count, p.busy_count + 1⟩,
            Except.ok false))
  ∧ (index < p.size → p.first_available_resource ≤ index → p.free_count < 2 →
      is_resource_free p index
        = (⟨p.size, p.first_available_resource, p.free_count + 1, p.busy_count⟩,
            Except.ok true))
  ∧ (index < p.size → p.first_available_resource ≤ index → 2 ≤ p.free_count →
      is_resource_free p index
        = (⟨p.size, p.first_available_resource, p.free_count + 1, p.busy_count⟩,
            Except.error QueryError.tooManyProbes)) := by
  obtain ⟨size, b, fc, bc⟩ := p
  refine ⟨?_, ?_, ?_, ?_⟩
  · intro h
    simp [is_resource_free, h]
  · intro h1 h2
    exact is_resource_free_busy size b fc bc index h1 h2
  · intro h1 h2 h3
    exact is_resource_free_free size b fc bc index h1 h2 h3
  · intro h1 h2 h3
    exact is_resource_free_probes size b fc bc index h1 h2 (Nat.lt_succ_of_le h3)

/-- Witness for `is_resource_free_contract`: each of the four cases at a
concrete pool and index. -/
theorem is_resource_free_contract_witness :
    is_resource_free ⟨4, 2, 0, 0⟩ 7 = (⟨4, 2, 0, 0⟩, Except.error QueryError.indexOutOfBound)
  ∧ is_resource_free ⟨4, 2, 0, 0⟩ 1 = (⟨4, 2, 0, 1⟩, Except.ok false)
  ∧ is_resource_free ⟨4, 2, 1, 5⟩ 3 = (⟨4, 2, 2, 5⟩, Except.ok true)
  ∧ is_resource_free ⟨4, 2, 2, 5⟩ 3 = (⟨4, 2, 3, 5⟩, Except.error QueryError.tooManyProbes) :=
  ⟨(is_resource_free_contract ⟨4, 2, 0, 0⟩ 7).1 (by decide),
   (is_resource_free_contract ⟨4, 2, 0, 0⟩ 1).2.1 (by decide) (by decide),
   (is_resource_free_contract ⟨4, 2, 1, 5⟩ 3).2.2.1 (by decide) (by decide) (by decide),
   (is_resource_free_contract ⟨4, 2, 2, 5⟩ 3).2.2.2 (by decide) (by decide) (by decide)⟩

/-- C7: classification is monotone.  If querying an in-range `i` answers
free, then every in-range `j > i` is at or above the hidden boundary,
and querying `j` — on any pool sharing the same size and boundary — can
never be classified busy: the answer is free (or the budget exception),
never `Except.ok false`. -/
theorem classification_monotone (p q : OrderedResources) (i j : Nat)
    (hsize : q.size = p.size)
    (hbound : q.first_available_resource = p.first_available_resource)
    (hij : i < j) (hj : j < p.size)
    (hfree : (is_resource_free p i).2 = Except.ok true) :
    p.first_available_resource ≤ j ∧ (is_resource_free q j).2 ≠ Except.ok false := by
  have hi : i < p.size := Nat.lt_trans hij hj
  have hbi : p.first_available_resource ≤ i := by
    by_contra hlt
    have hlt' : i < p.first_available_resource := Nat.not_le.mp hlt
    have hbusy : is_resource_free p i
        = (⟨p.size, p.first_available_resource, p.free_count, p.busy_count + 1⟩,
            Except.ok false) :=
      is_resource_free_busy p.size p.first_available_resource p.free_count p.busy_count i
        hi hlt'
    rw [hbusy] at hfree
    simp at hfree
  have hbj : p.first_available_resource ≤ j := by omega
  refine ⟨hbj, ?_⟩
  intro hcontra
  have hj' : j < q.size := by omega
  have hbj' : q.first_available_resource ≤ j := by omega
  by_cases hfc : q.free_count + 1 ≤ 2
  · have hq : is_resource_free q j
        = (⟨q.size, q.first_available_resource, q.free_count + 1, q.busy_count⟩,
            Except.ok true) :=
      is_resource_free_free q.size q.first_available_resource q.free_count q.busy_count j
        hj' hbj' hfc
    rw [hq] at hcontra
    simp at hcontra
  · have hq : is_resource_free q j
        = (⟨q.size, q.first_available_resource, q.free_count + 1, q.busy_count⟩,
            Except.error QueryError.tooManyProbes) :=
      is_resource_free_probes q.size q.first_available_resource q.free_count q.busy_count j
        hj' hbj' (by omega)
    rw [hq] at hcontra
    simp at hcontra

/-- Witness for `classification_monotone` at a pool of size 5 with
boundary 1, `i = 1`, `j = 3`. -/
theorem classification_monotone_witness :
    1 ≤ 3 ∧ (is_resource_free ⟨5, 1, 0, 0⟩ 3).2 ≠ Except.ok false :=
  classification_monotone ⟨5, 1, 0, 0⟩ ⟨5, 1, 0, 0⟩ 1 3 rfl rfl (by decide) (by decide) rfl

/-- C8: querying the same in-range index twice yields the same busy/free
classification; the only difference the second call can exhibit is the
budget side effect — a repeated free answer may turn into the
`TooManyProbes` failure once the budget is exhausted. -/
theorem query_idempotent (p : OrderedResources) (index : Nat) (h : index < p.size) :
    ((is_resource_free p index).2 = Except.ok false →
      (is_resource_free (is_resource_free p index).1 index).2 = Except.ok false)
  ∧ ((is_resource_free p index).2 = Except.ok true →
      (is_resource_free (is_resource_free p index).1 index).2 = Except.ok true
    ∨ (is_resource_free (is_resource_free p index).1 index).2
        = Except.error QueryError.tooManyProbes) := by
  obtain ⟨size, b, fc, bc⟩ := p
  have h' : index < size := h
  by_cases hb : b ≤ index
  · by_cases hfc : fc + 1 ≤ 2
    · have h1 : is_resource_free ⟨size, b, fc, bc⟩ index
          = (⟨size, b, fc + 1, bc⟩, Except.ok true) :=
        is_resource_free_free size b fc bc index h' hb hfc
      rw [h1]
      dsimp only
      constructor
      · intro hcontra
        exact absurd hcontra (by simp)
      · intro _
        by_cases hfc2 : fc + 1 + 1 ≤ 2
        · have h2 : is_resource_free ⟨size, b, fc + 1, bc⟩ index
              = (⟨size, b, fc + 1 + 1, bc⟩, Except.ok true) :=
            is_resource_free_free size b (fc + 1) bc index h' hb hfc2
          rw [h2]
          exact Or.inl rfl
        · have h2 : is_resource_free ⟨size, b, fc + 1, bc⟩ index
              = (⟨size, b, fc + 1 + 1, bc⟩, Except.error QueryError.tooManyProbes) :=
            is_resource_free_probes size b (fc + 1) bc index h' hb (by omega)
          rw [h2]
          exact Or.inr rfl
    · have h1 : is_resource_free ⟨size, b, fc, bc⟩ index
          = (⟨size, b, fc + 1, bc⟩, Except.error QueryError.tooManyProbes) :=
        is_resource_free_probes size b fc bc index h' hb (by omega)
      rw [h1]
      dsimp only
      constructor
      · intro hcontra
        exact absurd hcontra (by simp)
      · intro hcontra
        exact absurd hcontra (by simp)
  · have hbi : index < b := Nat.not_le.mp hb
    have h1 : is_resource_free ⟨size, b, fc, bc⟩ index
        = (⟨size, b, fc, bc + 1⟩, Except.ok false) :=
      is_resource_free_busy size b fc bc index h' hbi
    rw [h1]
    dsimp only
    constructor
    · intro _
      have h2 : is_resource_free ⟨size, b, fc, bc + 1⟩ index
          = (⟨size, b, fc, bc + 1 + 1⟩, Except.ok false) :=
        is_resource_free_busy size b fc (bc + 1) index h' hbi
      rw [h2]
    · intro hcontra
      exact absurd hcontra (by simp)

/-- Witness for `query_idempotent` at a pool of size 6 with boundary 4,
index 2 (busy side) — applied at one concrete in-range index. -/
theorem query_idempotent_witness :
    ((is_resource_free ⟨6, 4, 0, 0⟩ 2).2 = Except.ok false →
      (is_resource_free (is_resource_free ⟨6, 4, 0, 0⟩ 2).1 2).2 = Except.ok false)
  ∧ ((is_resource_free ⟨6, 4, 0, 0⟩ 2).2 = Except.ok true →
      (is_resource_free (is_resource_free ⟨6, 4, 0, 0⟩ 2).1 2).2 = Except.ok true
    ∨ (is_resource_free (is_resource_free ⟨6, 4, 0, 0⟩ 2).1 2).2
        = Except.error QueryError.tooManyProbes) :=
  query_idempotent ⟨6, 4, 0, 0⟩ 2 (by decide)

/-- C1: for every size and every hidden boundary in `[0, size]`, running
`locate` against a fresh pool with that boundary either returns exactly
the boundary (when `boundary < size`), or reports that no free resource
exists — the `AllResourcesInUse` raise, the code's rendering of the
`NoFreeResource` report, which also covers `size = 0` — (when
`boundary = size`), or fails with the probe-budget exception
`TooManyProbes`; no other outcome, in particular no wrong index, is
possible. -/
theorem locate_outcome_trichotomy (size b : Nat) (hb : b ≤ size) :
    (b < size ∧ (locate ⟨size, b, 0, 0⟩).2.2 = LocateResult.found b)
  ∨ (b = size ∧ (locate ⟨size, b, 0, 0⟩).2.2 = LocateResult.allResourcesInUse)
  ∨ (locate ⟨size, b, 0, 0⟩).2.2 = LocateResult.tooManyProbes := by
  rcases Nat.lt_or_ge b size with h | h
  · obtain ⟨tr, htr⟩ := locate_found size b h
    refine Or.inl ⟨h, ?_⟩
    rw [htr]
  · have hbs : b = size := Nat.le_antisymm hb h
    rcases Nat.eq_zero_or_pos size with h0 | h0
    · refine Or.inr (Or.inl ⟨hbs, ?_⟩)
      subst hbs
      subst h0
      rfl
    · obtain ⟨tr, htr⟩ := locate_all_busy size b h0 (by omega)
      refine Or.inr (Or.inl ⟨hbs, ?_⟩)
      rw [htr]

/-- Witness for `locate_outcome_trichotomy` at `size = 4`,
`boundary = 2`. -/
theorem locate_outcome_trichotomy_witness :
    2 ≤ 4 ∧
    ((2 < 4 ∧ (locate ⟨4, 2, 0, 0⟩).2.2 = LocateResult.found 2)
      ∨ (2 = 4 ∧ (locate ⟨4, 2, 0, 0⟩).2.2 = LocateResult.allResourcesInUse)
      ∨ (locate ⟨4, 2, 0, 0⟩).2.2 = LocateResult.tooManyProbes) :=
  ⟨by decide, locate_outcome_trichotomy 4 2 (by decide)⟩

/-- C9: on every pool the constructor can actually produce (`size ≥ 1`,
boundary in `[0, size)`, counters 0), `locate` returns the boundary and
never triggers the probe-budget failure: afterwards `_free_count` is
exactly 2 when the boundary is at most `size - 2` and exactly 1 when the
boundary is `size - 1`, so the budget of 2 is never exceeded. -/
theorem locate_within_budget (size b : Nat) (_hsz : 1 ≤ size) (h2 : b < size) :
    (locate ⟨size, b, 0, 0⟩).2.2 = LocateResult.found b
  ∧ (locate ⟨size, b, 0, 0⟩).2.2 ≠ LocateResult.tooManyProbes
  ∧ (locate ⟨size, b, 0, 0⟩).1.free_count = (if b + 1 < size then 2 else 1)
  ∧ (locate ⟨size, b, 0, 0⟩).1.free_count ≤ 2 := by
  obtain ⟨tr, htr⟩ := locate_found size b h2
  rw [htr]
  dsimp only
  refine ⟨rfl, by simp, rfl, ?_⟩
  split <;> omega

/-- Witness for `locate_within_budget` at `size = 5`, `boundary = 2`. -/
theorem locate_within_budget_witness :
    (locate ⟨5, 2, 0, 0⟩).2.2 = LocateResult.found 2
  ∧ (locate ⟨5, 2, 0, 0⟩).2.2 ≠ LocateResult.tooManyProbes
  ∧ (locate ⟨5, 2, 0, 0⟩).1.free_count = (if 2 + 1 < 5 then 2 else 1)
  ∧ (locate ⟨5, 2, 0, 0⟩).1.free_count ≤ 2 :=
  locate_within_budget 5 2 (by decide) (by decide)

/-- C3 (code bug): for `size = 0` construction does not succeed — the
constructor's call `random.randint(0, -1)` raises `ValueError` — and
`locate` run on a directly assembled size-0 pool raises
`AllResourcesInUse`, the very exception that reports "no free resource",
not a distinct `PoolEmpty` outcome; it does issue zero queries and
leaves both counters at 0. -/
theorem size_zero_pool_bug :
    ordInit 0 0 = Except.error InitError.emptyRange
  ∧ locate ⟨0, 0, 0, 0⟩ = (⟨0, 0, 0, 0⟩, [], LocateResult.allResourcesInUse) := by
  exact ⟨rfl, rfl⟩

/-- C4 (code bug): the constructor raises `NegativeSize` on negative
sizes and for `size ≥ 1` succeeds with the drawn boundary and zeroed
counters — but for `size = 0` it does not succeed: `random.randint`
raises `ValueError` on its empty range, contradicting the claim that
construction succeeds for every `size ≥ 0`. -/
theorem init_size_cases :
    ordInit (-3) 0 = Except.error InitError.negativeSize
  ∧ ordInit 0 7 = Except.error InitError.emptyRange
  ∧ ordInit 5 3 = Except.ok ⟨5, 3, 0, 0⟩
  ∧ ordInit 1 0 = Except.ok ⟨1, 0, 0, 0⟩ := by
  exact ⟨rfl, rfl, rfl, rfl⟩

set_option maxRecDepth 4000 in
/-- C5 (code bug): `locate` is a linear scan, not sub-linear: on pools
of size 100 and 200 with the boundary two short of the end, it issues
exactly 100 and 200 queries — busy plus free observations (equally, the
length of the query trace) equal the full pool size, growing in
proportion to N rather than O(log N). -/
theorem locate_query_count_linear :
    (locate ⟨100, 98, 0, 0⟩).1.busy_count + (locate ⟨100, 98, 0, 0⟩).1.free_count = 100
  ∧ (locate ⟨100, 98, 0, 0⟩).2.1.length = 100
  ∧ (locate ⟨100, 98, 0, 0⟩).2.2 = LocateResult.found 98
  ∧ (locate ⟨200, 198, 0, 0⟩).1.busy_count + (locate ⟨200, 198, 0, 0⟩).1.free_count = 200
  ∧ (locate ⟨200, 198, 0, 0⟩).2.1.length = 200
  ∧ (locate ⟨200, 198, 0, 0⟩).2.2 = LocateResult.found 198 := by
  decide

/-- C6 (code bug): for `size = 8`, `boundary = 5` the code queries
indices `0, 1, 2, 3, 4, 5, 6` in order — index 3 is queried and the
step never doubles, contradicting the claimed galloping sequence
`0, 1, 2, 4` that skips 3 — although the final answer 5 and the two
free observations do match the claim. -/
theorem locate_trace_size8_boundary5 :
    locate ⟨8, 5, 0, 0⟩ = (⟨8, 5, 2, 5⟩, [0, 1, 2, 3, 4, 5, 6], LocateResult.found 5)
  ∧ 3 ∈ (locate ⟨8, 5, 0, 0⟩).2.1 := by
  decide

/-- The scan loop can only end in a returned index, `AllResourcesInUse`,
or a propagated query exception — never in `NotImplementedError`. -/
lemma locateLoop_never_notImplemented :
    ∀ (rem : Nat) (p : OrderedResources) (cache : List (Nat × Bool)) (trace : List Nat)
      (flag : Bool) (i : Nat),
      (locateLoop rem p cache trace flag i).2.2 ≠ LocateResult.notImplementedError := by
  intro rem
  induction rem with
  | zero =>
    intro p cache trace flag i
    simp only [locateLoop]
    split <;> simp
  | succ k ih =>
    intro p cache trace flag i
    simp only [locateLoop]
    repeat' split
    all_goals first
      | exact ih _ _ _ _ _
      | simp

/-- C10: the `raise NotImplementedError` on the last line of `locate` is
dead code: every run of `locate`, on any pool state whatsoever, ends in
a returned index or one of the other raises before reaching it. -/
theorem locate_no_notImplemented (p : OrderedResources) :
    (locate p).2.2 ≠ LocateResult.notImplementedError := by
  simp only [locate]
  split
  · simp
  · exact locateLoop_never_notImplemented p.size p [] [] false 0
